import Mathlib

/-!
Verification of the Procrastinator Partner countdown-timer widget.

The development shallowly embeds the two logic-bearing units of the
repository:

* the timer engine from src/hooks/useTimer.ts (state, start, pause,
  reset, toggle, setDuration, the periodic interval tick, formatTime,
  and the derived progress ratio);
* the click classifier from src/components/Timer/TimerDisplay.tsx
  (handleClick with its 500 ms triple-click window and the deferred
  setTimeout check).

JavaScript numbers that hold millisecond counts and wall-clock times are
modelled as Int (all arithmetic the code performs on them is integer
arithmetic); the real-valued progress ratio is modelled as Rat.  The
interval handle (intervalRef) is modelled as a Bool flag; the refs
startTimeRef and remainingAtStartRef are explicit state fields; the
onComplete callback is instrumented as a counter of its invocations.
-/

set_option autoImplicit false

/-- Timer status, from src/types/timer.ts: TimerStatus. -/
inductive TimerStatus where
  | idle
  | running
  | paused
  | completed
deriving DecidableEq, Repr

/-- Default duration, 25 minutes in milliseconds (src/types/timer.ts). -/
def DEFAULT_DURATION_MS : Int := 25 * 60 * 1000

/-- Minimum timer duration, 1 second (src/types/timer.ts). -/
def MIN_DURATION_MS : Int := 1000

/-- Full state of the useTimer hook: the TimerState fields remainingMs,
status, initialMs (src/types/timer.ts) plus the refs of useTimer.ts:
intervalRef (modelled as the Bool intervalActive), startTimeRef,
remainingAtStartRef, and an instrumentation counter completedFires for
the invocations of the onComplete callback. -/
structure TimerM where
  remainingMs : Int
  status : TimerStatus
  initialMs : Int
  intervalActive : Bool
  startTime : Int
  remainingAtStart : Int
  completedFires : Nat
deriving DecidableEq, Repr

/-- The state built by useTimer on construction: remainingMs and
initialMs are the caller-supplied initial duration, status is idle, the
refs are 0 and no interval runs (useTimer.ts lines 91-109). -/
def initState (initialDuration : Int) : TimerM :=
  { remainingMs := initialDuration
    status := .idle
    initialMs := initialDuration
    intervalActive := false
    startTime := 0
    remainingAtStart := 0
    completedFires := 0 }

/-- start (useTimer.ts lines 138-166): no-op when already running or when
remainingMs <= 0; otherwise records now and the current remainingMs as
the baseline, sets status to running and starts the interval. -/
def start (now : Int) (s : TimerM) : TimerM :=
  if s.status = .running then s
  else if s.remainingMs ≤ 0 then s
  else
    { s with
      startTime := now
      remainingAtStart := s.remainingMs
      status := .running
      intervalActive := true }

/-- One firing of the interval callback installed by start (useTimer.ts
lines 152-165).  A cleared interval never fires, so the model is the
identity when no interval is active.  Otherwise elapsed = now - startTime,
newRemaining = max 0 (remainingAtStart - elapsed); on newRemaining <= 0
the interval stops, onComplete fires and the state becomes completed with
remainingMs pinned to 0; otherwise remainingMs becomes newRemaining. -/
def tick (now : Int) (s : TimerM) : TimerM :=
  if s.intervalActive = false then s
  else if max 0 (s.remainingAtStart - (now - s.startTime)) ≤ 0 then
    { s with
      remainingMs := 0
      status := .completed
      intervalActive := false
      completedFires := s.completedFires + 1 }
  else { s with remainingMs := max 0 (s.remainingAtStart - (now - s.startTime)) }

/-- pause (useTimer.ts lines 169-179): no-op unless running; otherwise
stops the interval and sets status to paused. -/
def pause (s : TimerM) : TimerM :=
  if s.status ≠ .running then s
  else { s with intervalActive := false, status := .paused }

/-- reset (useTimer.ts lines 182-190): stops any interval, sets
remainingMs to initialMs and status to idle.  Valid from any status. -/
def reset (s : TimerM) : TimerM :=
  { s with intervalActive := false, remainingMs := s.initialMs, status := .idle }

/-- toggle (useTimer.ts lines 193-205): dispatch on the current status,
mirroring the else-if chain of the source. -/
def toggle (now : Int) (s : TimerM) : TimerM :=
  if s.status = .running then pause s
  else if s.status = .idle ∨ s.status = .paused then start now s
  else if s.status = .completed then reset s
  else s

/-- setDuration (useTimer.ts lines 209-220): clamps the requested
duration to MIN_DURATION_MS, stops any interval, and installs the clamped
value as both remainingMs and initialMs with status idle. -/
def setDuration (ms : Int) (s : TimerM) : TimerM :=
  let safeDuration := max MIN_DURATION_MS ms
  { s with
    intervalActive := false
    remainingMs := safeDuration
    status := .idle
    initialMs := safeDuration }

/-- The derived progress ratio (useTimer.ts lines 224-225):
(initialMs - remainingMs) / initialMs when initialMs > 0, else 0. -/
def progress (s : TimerM) : ℚ :=
  if 0 < s.initialMs then ((s.initialMs : ℚ) - (s.remainingMs : ℚ)) / (s.initialMs : ℚ)
  else 0

/-- States reachable from construction by any sequence of the engine
operations and interval ticks.  Construction uses a positive initial
duration (the spec data model: initialMs is a positive integer; the
default is DEFAULT_DURATION_MS).  A tick carries the wall-clock
monotonicity fact that it fires no earlier than the recorded baseline
time. -/
inductive Reachable : TimerM → Prop where
  | init (d : Int) (hd : 0 < d) : Reachable (initState d)
  | start (s : TimerM) (now : Int) (h : Reachable s) : Reachable (start now s)
  | pause (s : TimerM) (h : Reachable s) : Reachable (pause s)
  | reset (s : TimerM) (h : Reachable s) : Reachable (reset s)
  | toggle (s : TimerM) (now : Int) (h : Reachable s) : Reachable (toggle now s)
  | setDuration (s : TimerM) (ms : Int) (h : Reachable s) : Reachable (setDuration ms s)
  | tick (s : TimerM) (now : Int) (h : Reachable s) (hmono : s.startTime ≤ now) :
      Reachable (tick now s)

/-- The inductive invariant of the timer state, strengthened with the
facts about the interval refs needed to close the tick case. -/
def TimerInv (s : TimerM) : Prop :=
  0 ≤ s.remainingMs ∧ 0 < s.initialMs ∧ s.remainingMs ≤ s.initialMs ∧
    (s.status = .completed → s.remainingMs = 0) ∧
    (s.intervalActive = true →
      s.status = .running ∧ 0 ≤ s.remainingAtStart ∧ s.remainingAtStart ≤ s.initialMs)

theorem timerInv_init (d : Int) (hd : 0 < d) : TimerInv (initState d) := by
  refine ⟨le_of_lt hd, hd, le_refl _, ?_, ?_⟩ <;> intro hx <;> exact nomatch hx

theorem timerInv_start (s : TimerM) (now : Int) (h : TimerInv s) :
    TimerInv (start now s) := by
  obtain ⟨h1, h2, h3, h4, h5⟩ := h
  unfold start
  split_ifs with hr hz
  · exact ⟨h1, h2, h3, h4, h5⟩
  · exact ⟨h1, h2, h3, h4, h5⟩
  · refine ⟨h1, h2, h3, ?_, fun _ => ⟨rfl, h1, h3⟩⟩
    intro hc
    exact nomatch hc

theorem timerInv_tick (s : TimerM) (now : Int) (h : TimerInv s)
    (hmono : s.startTime ≤ now) : TimerInv (tick now s) := by
  obtain ⟨h1, h2, h3, h4, h5⟩ := h
  unfold tick
  split_ifs with ha hz
  · exact ⟨h1, h2, h3, h4, h5⟩
  · refine ⟨le_refl 0, h2, le_of_lt h2, fun _ => rfl, ?_⟩
    intro hf
    exact nomatch hf
  · simp only [Bool.not_eq_false] at ha
    obtain ⟨hrun, hras0, hras⟩ := h5 ha
    refine ⟨le_max_left _ _, h2, max_le_iff.mpr ⟨le_of_lt h2,
      show s.remainingAtStart - (now - s.startTime) ≤ s.initialMs by omega⟩, ?_, ?_⟩
    · intro hc
      rw [show ({ s with remainingMs := max 0 (s.remainingAtStart - (now - s.startTime)) } :
        TimerM).status = s.status from rfl, hrun] at hc
      exact nomatch hc
    · exact fun _ => ⟨hrun, hras0, hras⟩

theorem timerInv_pause (s : TimerM) (h : TimerInv s) : TimerInv (pause s) := by
  obtain ⟨h1, h2, h3, h4, h5⟩ := h
  unfold pause
  split_ifs with hr
  · exact ⟨h1, h2, h3, h4, h5⟩
  · refine ⟨h1, h2, h3, ?_, ?_⟩ <;> intro hx <;> exact nomatch hx

theorem timerInv_reset (s : TimerM) (h : TimerInv s) : TimerInv (reset s) := by
  obtain ⟨h1, h2, h3, h4, h5⟩ := h
  refine ⟨le_of_lt h2, h2, le_refl _, ?_, ?_⟩ <;> intro hx <;> exact nomatch hx

theorem timerInv_setDuration (s : TimerM) (ms : Int) (_h : TimerInv s) :
    TimerInv (setDuration ms s) := by
  have hM : (0 : Int) < MIN_DURATION_MS := by decide
  have hm : MIN_DURATION_MS ≤ max MIN_DURATION_MS ms := le_max_left _ _
  refine ⟨le_of_lt (lt_of_lt_of_le hM hm), lt_of_lt_of_le hM hm, le_refl _, ?_, ?_⟩ <;>
    intro hx <;> exact nomatch hx

theorem timerInv_toggle (s : TimerM) (now : Int) (h : TimerInv s) :
    TimerInv (toggle now s) := by
  unfold toggle
  split_ifs
  · exact timerInv_pause s h
  · exact timerInv_start s now h
  · exact timerInv_reset s h
  · exact h

theorem timerInv_reachable (s : TimerM) (h : Reachable s) : TimerInv s := by
  induction h with
  | init d hd => exact timerInv_init d hd
  | start s now _ ih => exact timerInv_start s now ih
  | pause s _ ih => exact timerInv_pause s ih
  | reset s _ ih => exact timerInv_reset s ih
  | toggle s now _ ih => exact timerInv_toggle s now ih
  | setDuration s ms _ ih => exact timerInv_setDuration s ms ih
  | tick s now _ hmono ih => exact timerInv_tick s now ih hmono

/-- C2: in every state reachable from construction by any sequence of
start, pause, toggle, reset, setDuration and interval ticks, remainingMs
is non-negative, initialMs is positive, remainingMs <= initialMs, and a
completed status forces remainingMs = 0. -/
theorem C2_timer_state_invariant (s : TimerM) (h : Reachable s) :
    0 ≤ s.remainingMs ∧ 0 < s.initialMs ∧ s.remainingMs ≤ s.initialMs ∧
      (s.status = .completed → s.remainingMs = 0) := by
  obtain ⟨h1, h2, h3, h4, _⟩ := timerInv_reachable s h
  exact ⟨h1, h2, h3, h4⟩

/-- Witness for C2 at the freshly constructed 1-second timer. -/
theorem C2_timer_state_invariant_witness :
    0 ≤ (initState 1000).remainingMs ∧ 0 < (initState 1000).initialMs ∧
      (initState 1000).remainingMs ≤ (initState 1000).initialMs ∧
      ((initState 1000).status = .completed → (initState 1000).remainingMs = 0) :=
  C2_timer_state_invariant (initState 1000) (Reachable.init 1000 (by decide))

/-- A cleared interval never fires: tick is the identity when no interval
is active. -/
theorem tick_inactive (now : Int) (s : TimerM) (h : s.intervalActive = false) :
    tick now s = s := by
  unfold tick
  rw [if_pos h]

/-- C3: while the interval is active, a tick computes newRemaining =
max 0 (baselineRemaining - (now - baselineTime)); when that value reaches
0 the interval stops, status becomes completed, remainingMs is pinned to
0 and the completion callback fires exactly once for this countdown: the
completing tick increments the fire counter by exactly one, a
non-completing tick leaves counter and status unchanged, and a tick on a
stopped interval is a no-op, so the counter cannot advance again after
completion. -/
theorem C3_tick_completion (s : TimerM) (now : Int) :
    (s.intervalActive = true →
      (tick now s).remainingMs = max 0 (s.remainingAtStart - (now - s.startTime))) ∧
    (s.intervalActive = true → max 0 (s.remainingAtStart - (now - s.startTime)) = 0 →
      (tick now s).status = .completed ∧ (tick now s).remainingMs = 0 ∧
        (tick now s).intervalActive = false ∧
        (tick now s).completedFires = s.completedFires + 1) ∧
    (s.intervalActive = true → 0 < max 0 (s.remainingAtStart - (now - s.startTime)) →
      (tick now s).completedFires = s.completedFires ∧ (tick now s).status = s.status) ∧
    (s.intervalActive = false → tick now s = s) := by
  unfold tick
  split_ifs with ha hz
  · refine ⟨?_, ?_, ?_, fun _ => rfl⟩ <;> intro ht <;> rw [ha] at ht <;> exact nomatch ht
  · refine ⟨?_, ?_, ?_, ?_⟩
    · intro _
      exact (le_antisymm hz (le_max_left _ _)).symm
    · intro _ _
      exact ⟨rfl, rfl, rfl, rfl⟩
    · intro _ hpos
      exact absurd hpos (not_lt.mpr hz)
    · intro hf
      exact absurd hf ha
  · refine ⟨?_, ?_, ?_, ?_⟩
    · intro _
      rfl
    · intro _ h0
      exact absurd (le_of_eq h0) hz
    · intro _ _
      exact ⟨rfl, rfl⟩
    · intro hf
      exact absurd hf ha

/-- Witness for C3: a 1000 ms timer started at time 0 and ticked at time
1000 completes with remainingMs 0, a stopped interval, and one callback
fire. -/
theorem C3_tick_completion_witness :
    (tick 1000 (start 0 (initState 1000))).status = .completed ∧
      (tick 1000 (start 0 (initState 1000))).remainingMs = 0 ∧
      (tick 1000 (start 0 (initState 1000))).intervalActive = false ∧
      (tick 1000 (start 0 (initState 1000))).completedFires =
        (start 0 (initState 1000)).completedFires + 1 :=
  (C3_tick_completion (start 0 (initState 1000)) 1000).2.1 (by decide) (by decide)

/-- C4: from every state and for every requested duration, setDuration
stops any periodic recomputation and leaves remainingMs = initialMs =
max(1000, ms) with status idle; non-positive durations are silently
floored to 1000, never rejected (setDuration is a total function). -/
theorem C4_setDuration_clamps (s : TimerM) (ms : Int) :
    (setDuration ms s).remainingMs = max 1000 ms ∧
      (setDuration ms s).initialMs = max 1000 ms ∧
      (setDuration ms s).status = .idle ∧
      (setDuration ms s).intervalActive = false ∧
      (ms ≤ 0 → (setDuration ms s).remainingMs = 1000) := by
  refine ⟨rfl, rfl, rfl, rfl, fun hms => ?_⟩
  show max (1000 : Int) ms = 1000
  exact max_eq_left (by omega)

/-- Witness for C4 at a negative requested duration. -/
theorem C4_setDuration_clamps_witness :
    (setDuration (-5) (initState 1000)).remainingMs = max 1000 (-5) ∧
      (setDuration (-5) (initState 1000)).initialMs = max 1000 (-5) ∧
      (setDuration (-5) (initState 1000)).status = .idle ∧
      (setDuration (-5) (initState 1000)).intervalActive = false ∧
      ((-5 : Int) ≤ 0 → (setDuration (-5) (initState 1000)).remainingMs = 1000) :=
  C4_setDuration_clamps (initState 1000) (-5)

/-- C5: toggle dispatches exactly by the current status: running pauses,
idle or paused starts, and completed resets, leaving status idle with
remainingMs = initialMs, not status running. -/
theorem C5_toggle_dispatch (s : TimerM) (now : Int) :
    (s.status = .running → toggle now s = pause s) ∧
      (s.status = .idle ∨ s.status = .paused → toggle now s = start now s) ∧
      (s.status = .completed →
        toggle now s = reset s ∧ (toggle now s).status = .idle ∧
          (toggle now s).remainingMs = s.initialMs ∧ (toggle now s).status ≠ .running) := by
  refine ⟨?_, ?_, ?_⟩
  · intro h
    simp [toggle, h]
  · intro h
    rcases h with h | h <;> simp [toggle, h]
  · intro h
    simp [toggle, reset, h]

/-- Witness for C5: toggling a completed timer yields status idle with
remainingMs restored to initialMs. -/
theorem C5_toggle_dispatch_witness :
    toggle 0 (tick 1000 (start 0 (initState 1000))) =
        reset (tick 1000 (start 0 (initState 1000))) ∧
      (toggle 0 (tick 1000 (start 0 (initState 1000)))).status = .idle ∧
      (toggle 0 (tick 1000 (start 0 (initState 1000)))).remainingMs =
        (tick 1000 (start 0 (initState 1000))).initialMs ∧
      (toggle 0 (tick 1000 (start 0 (initState 1000)))).status ≠ .running :=
  (C5_toggle_dispatch (tick 1000 (start 0 (initState 1000))) 0).2.2 (by decide)

/-- C7: start is a no-op when the timer is already running or when no
time remains: the whole state, including the recorded baseline time and
baseline remaining time, is returned unchanged. -/
theorem C7_start_noop (s : TimerM) (now : Int)
    (h : s.status = .running ∨ s.remainingMs ≤ 0) : start now s = s := by
  unfold start
  split_ifs with h1 h2
  · rfl
  · rfl
  · rcases h with h | h
    · exact absurd h h1
    · exact absurd h h2

/-- Witness for C7: a second start call on an already running timer
changes nothing, in particular it does not move the baseline. -/
theorem C7_start_noop_witness :
    start 5 (start 0 (initState 1000)) = start 0 (initState 1000) :=
  C7_start_noop (start 0 (initState 1000)) 5 (Or.inl (by decide))

/-- C10: start, pause, reset, toggle and the interval tick never change
initialMs; setDuration is the only operation that can change it, shown by
a concrete state where it does. -/
theorem C10_initialMs_frame (s : TimerM) (now : Int) :
    (start now s).initialMs = s.initialMs ∧
      (pause s).initialMs = s.initialMs ∧
      (reset s).initialMs = s.initialMs ∧
      (toggle now s).initialMs = s.initialMs ∧
      (tick now s).initialMs = s.initialMs ∧
      (setDuration 2000 (initState 1000)).initialMs ≠ (initState 1000).initialMs := by
  refine ⟨?_, ?_, ?_, ?_, ?_, by decide⟩
  · unfold start
    split_ifs <;> rfl
  · unfold pause
    split_ifs <;> rfl
  · rfl
  · unfold toggle start pause reset
    split_ifs <;> rfl
  · unfold tick
    split_ifs <;> rfl

/-- An active interval whose recomputed remaining time has reached 0
completes the timer. -/
theorem tick_active_complete (now : Int) (s : TimerM) (ha : s.intervalActive = true)
    (hz : max 0 (s.remainingAtStart - (now - s.startTime)) ≤ 0) :
    tick now s = { s with remainingMs := 0, status := .completed, intervalActive := false, completedFires := s.completedFires + 1 } := by
  unfold tick
  rw [if_neg (by rw [ha]; exact fun hf => nomatch hf), if_pos hz]

/-- An active interval whose recomputed remaining time is still positive
just updates remainingMs. -/
theorem tick_active_run (now : Int) (s : TimerM) (ha : s.intervalActive = true)
    (hz : 0 < max 0 (s.remainingAtStart - (now - s.startTime))) :
    tick now s = { s with remainingMs := max 0 (s.remainingAtStart - (now - s.startTime)) } := by
  unfold tick
  rw [if_neg (by rw [ha]; exact fun hf => nomatch hf), if_neg (not_le.mpr hz)]

/-- Progress is antitone in remainingMs when initialMs is unchanged. -/
theorem progress_mono_aux (s t : TimerM) (hinit : t.initialMs = s.initialMs)
    (hrem : t.remainingMs ≤ s.remainingMs) : progress s ≤ progress t := by
  unfold progress
  rw [hinit]
  split_ifs with h
  · have hiq : (0 : ℚ) < (s.initialMs : ℚ) := by exact_mod_cast h
    rw [div_le_div_iff_of_pos_right hiq]
    have : (t.remainingMs : ℚ) ≤ (s.remainingMs : ℚ) := by exact_mod_cast hrem
    linarith
  · exact le_refl 0

/-- C8: progress equals (initialMs - remainingMs) / initialMs when
initialMs > 0 and 0 otherwise; on reachable states it lies in [0, 1]; it
is 0 immediately after reset or setDuration; and it is non-decreasing
across successive interval ticks. -/
theorem C8_progress_properties (s : TimerM) (ms n1 n2 : Int)
    (hr : Reachable s) (h12 : n1 ≤ n2) :
    (0 < s.initialMs →
      progress s = ((s.initialMs : ℚ) - (s.remainingMs : ℚ)) / (s.initialMs : ℚ)) ∧
    (¬0 < s.initialMs → progress s = 0) ∧
    (0 ≤ progress s ∧ progress s ≤ 1) ∧
    progress (reset s) = 0 ∧
    progress (setDuration ms s) = 0 ∧
    progress (tick n1 s) ≤ progress (tick n2 (tick n1 s)) := by
  refine ⟨fun h => by rw [progress, if_pos h], fun h => by rw [progress, if_neg h],
    ?_, ?_, ?_, ?_⟩
  · obtain ⟨h1, h2, h3, -, -⟩ := timerInv_reachable s hr
    have hiq : (0 : ℚ) < (s.initialMs : ℚ) := by exact_mod_cast h2
    have hrq : (0 : ℚ) ≤ (s.remainingMs : ℚ) := by exact_mod_cast h1
    have h3q : (s.remainingMs : ℚ) ≤ (s.initialMs : ℚ) := by exact_mod_cast h3
    rw [progress, if_pos h2]
    constructor
    · apply div_nonneg _ (le_of_lt hiq)
      linarith
    · rw [div_le_one hiq]
      linarith
  · rw [progress]
    split_ifs with h
    · show ((s.initialMs : ℚ) - (s.initialMs : ℚ)) / (s.initialMs : ℚ) = 0
      rw [sub_self, zero_div]
    · rfl
  · rw [progress]
    split_ifs with h
    · show (((max MIN_DURATION_MS ms : Int) : ℚ) - ((max MIN_DURATION_MS ms : Int) : ℚ)) /
        ((max MIN_DURATION_MS ms : Int) : ℚ) = 0
      rw [sub_self, zero_div]
    · rfl
  · rcases Bool.eq_false_or_eq_true s.intervalActive with ha | ha
    · rcases le_or_lt (max 0 (s.remainingAtStart - (n1 - s.startTime))) 0 with hz | hz
      · rw [tick_active_complete n1 s ha hz, tick_inactive n2 _ rfl]
      · rw [tick_active_run n1 s ha hz]
        rcases le_or_lt (max 0 (s.remainingAtStart - (n2 - s.startTime))) 0 with hz2 | hz2
        · rw [tick_active_complete n2 { s with remainingMs := max 0 (s.remainingAtStart - (n1 - s.startTime)) } ha hz2]
          exact progress_mono_aux _ _ rfl (le_max_left _ _)
        · rw [tick_active_run n2 { s with remainingMs := max 0 (s.remainingAtStart - (n1 - s.startTime)) } ha hz2]
          have hle : max 0 (s.remainingAtStart - (n2 - s.startTime)) ≤
              max 0 (s.remainingAtStart - (n1 - s.startTime)) :=
            max_le_iff.mpr ⟨le_max_left _ _,
              le_trans (by omega) (le_max_right 0 (s.remainingAtStart - (n1 - s.startTime)))⟩
          exact progress_mono_aux _ _ rfl hle
    · rw [tick_inactive n1 s ha, tick_inactive n2 s ha]

/-- Witness for C8 at the freshly constructed 1-second timer. -/
theorem C8_progress_properties_witness :
    0 ≤ progress (initState 1000) ∧ progress (initState 1000) ≤ 1 :=
  (C8_progress_properties (initState 1000) 0 0 0
    (Reachable.init 1000 (by decide)) (le_refl 0)).2.2.1

/-- The JS String.prototype.padStart used by formatTime: left-pad with
the given character up to the target length. -/
def padStart (s : String) (len : Nat) (c : Char) : String :=
  String.mk (List.replicate (len - s.length) c) ++ s

/-- FormattedTime (src/types/timer.ts): the decomposition of a
millisecond count plus the pre-formatted display string. -/
structure FormattedTime where
  hours : Nat
  minutes : Nat
  seconds : Nat
  milliseconds : Nat
  display : String
deriving DecidableEq, Repr

/-- formatTime (useTimer.ts lines 16-40): clamp to non-negative, split
into hours / minutes / seconds / milliseconds, and build the display
string, omitting the hour field when it is zero and zero-padding minutes
and seconds to two digits. -/
def formatTime (ms : Int) : FormattedTime :=
  let safeMs := (max 0 ms).toNat
  let hours := safeMs / (1000 * 60 * 60)
  let minutes := safeMs % (1000 * 60 * 60) / (1000 * 60)
  let seconds := safeMs % (1000 * 60) / 1000
  let milliseconds := safeMs % 1000
  let display :=
    if hours > 0 then
      toString hours ++ ":" ++ padStart (toString minutes) 2 '0' ++ ":" ++
        padStart (toString seconds) 2 '0'
    else
      padStart (toString minutes) 2 '0' ++ ":" ++ padStart (toString seconds) 2 '0'
  { hours := hours, minutes := minutes, seconds := seconds,
    milliseconds := milliseconds, display := display }

/-- C9: formatTime decomposes a non-negative millisecond count into
hours, minutes, seconds and milliseconds that recombine to the input,
with minutes and seconds below 60 and milliseconds below 1000; the
display omits the hour field when hours = 0 and otherwise leads with the
unpadded hour field, zero-padding minutes and seconds to two digits; in
particular formatTime 0 displays "00:00" and formatTime 3661000 displays
"1:01:01". -/
theorem C9_formatTime_correct (ms : Int) (h : 0 ≤ ms) :
    ((formatTime ms).hours : Int) * 3600000 + ((formatTime ms).minutes : Int) * 60000 +
        ((formatTime ms).seconds : Int) * 1000 + ((formatTime ms).milliseconds : Int) = ms ∧
      (formatTime ms).minutes < 60 ∧
      (formatTime ms).seconds < 60 ∧
      (formatTime ms).milliseconds < 1000 ∧
      ((formatTime ms).hours = 0 →
        (formatTime ms).display =
          padStart (toString (formatTime ms).minutes) 2 '0' ++ ":" ++
            padStart (toString (formatTime ms).seconds) 2 '0') ∧
      (0 < (formatTime ms).hours →
        (formatTime ms).display =
          toString (formatTime ms).hours ++ ":" ++
            padStart (toString (formatTime ms).minutes) 2 '0' ++ ":" ++
            padStart (toString (formatTime ms).seconds) 2 '0') ∧
      (formatTime 0).display = "00:00" ∧
      (formatTime 3661000).display = "1:01:01" := by
  have e1 : (formatTime ms).hours = (max 0 ms).toNat / (1000 * 60 * 60) := rfl
  have e2 : (formatTime ms).minutes =
    (max 0 ms).toNat % (1000 * 60 * 60) / (1000 * 60) := rfl
  have e3 : (formatTime ms).seconds = (max 0 ms).toNat % (1000 * 60) / 1000 := rfl
  have e4 : (formatTime ms).milliseconds = (max 0 ms).toNat % 1000 := rfl
  have hmax : max 0 ms = ms := max_eq_right h
  refine ⟨?_, ?_, ?_, ?_, ?_, ?_, ?_, ?_⟩
  · rw [e1, e2, e3, e4, hmax]
    omega
  · rw [e2, hmax]
    omega
  · rw [e3, hmax]
    omega
  · rw [e4, hmax]
    omega
  · intro hh
    rw [e1] at hh
    show (if (max 0 ms).toNat / (1000 * 60 * 60) > 0 then
        toString ((max 0 ms).toNat / (1000 * 60 * 60)) ++ ":" ++
          padStart (toString ((max 0 ms).toNat % (1000 * 60 * 60) / (1000 * 60))) 2 '0' ++
          ":" ++ padStart (toString ((max 0 ms).toNat % (1000 * 60) / 1000)) 2 '0'
      else
        padStart (toString ((max 0 ms).toNat % (1000 * 60 * 60) / (1000 * 60))) 2 '0' ++
          ":" ++ padStart (toString ((max 0 ms).toNat % (1000 * 60) / 1000)) 2 '0') =
      padStart (toString (formatTime ms).minutes) 2 '0' ++ ":" ++
        padStart (toString (formatTime ms).seconds) 2 '0'
    rw [if_neg (by omega), e2, e3]
  · intro hh
    rw [e1] at hh
    show (if (max 0 ms).toNat / (1000 * 60 * 60) > 0 then
        toString ((max 0 ms).toNat / (1000 * 60 * 60)) ++ ":" ++
          padStart (toString ((max 0 ms).toNat % (1000 * 60 * 60) / (1000 * 60))) 2 '0' ++
          ":" ++ padStart (toString ((max 0 ms).toNat % (1000 * 60) / 1000)) 2 '0'
      else
        padStart (toString ((max 0 ms).toNat % (1000 * 60 * 60) / (1000 * 60))) 2 '0' ++
          ":" ++ padStart (toString ((max 0 ms).toNat % (1000 * 60) / 1000)) 2 '0') =
      toString (formatTime ms).hours ++ ":" ++
        padStart (toString (formatTime ms).minutes) 2 '0' ++ ":" ++
        padStart (toString (formatTime ms).seconds) 2 '0'
    rw [if_pos (by omega), e1, e2, e3]
  · rfl
  · rfl

/-- Witness for C9 at 3661000 ms: one hour, one minute, one second. -/
theorem C9_formatTime_correct_witness :
    ((formatTime 3661000).hours : Int) * 3600000 +
        ((formatTime 3661000).minutes : Int) * 60000 +
        ((formatTime 3661000).seconds : Int) * 1000 +
        ((formatTime 3661000).milliseconds : Int) = 3661000 ∧
      (formatTime 3661000).display = "1:01:01" :=
  ⟨(C9_formatTime_correct 3661000 (by decide)).1,
    (C9_formatTime_correct 3661000 (by decide)).2.2.2.2.2.2.2⟩

/-- Classifier state of TimerDisplay.tsx: the clickTimestamps ref plus
instrumentation counters for the onToggle and onReset invocations. -/
structure ClickState where
  buffer : List Int
  toggles : Nat
  resets : Nat
deriving DecidableEq, Repr

/-- Time window for a triple-click, in ms (TimerDisplay.tsx line 63). -/
def TRIPLE_CLICK_WINDOW : Int := 500

/-- handleClick (TimerDisplay.tsx lines 65-95): push the current
timestamp, keep only timestamps within the trailing window, and on 3 or
more buffered clicks clear the buffer and invoke onReset; otherwise keep
the pruned buffer (the source then schedules a deferred check 500 ms
later, modelled as a later ClickEvent.check). -/
def handleClick (now : Int) (s : ClickState) : ClickState :=
  let buf := (s.buffer ++ [now]).filter (fun t => now - t < TRIPLE_CLICK_WINDOW)
  if 3 ≤ buf.length then
    { buffer := [], toggles := s.toggles, resets := s.resets + 1 }
  else { s with buffer := buf }

/-- The deferred setTimeout callback (TimerDisplay.tsx lines 87-93):
invoke onToggle and clear the buffer only when the buffer still holds
between 1 and 2 timestamps; otherwise do nothing. -/
def deferredCheck (s : ClickState) : ClickState :=
  if 0 < s.buffer.length ∧ s.buffer.length < 3 then
    { buffer := [], toggles := s.toggles + 1, resets := s.resets }
  else s

/-- The discrete events the classifier reacts to: a pointer click at a
wall-clock time, or the firing of a previously scheduled deferred
check (the callback reads no clock, so the event carries no time). -/
inductive ClickEvent where
  | click (t : Int)
  | check
deriving DecidableEq, Repr

def clickStep (s : ClickState) : ClickEvent → ClickState
  | .click t => handleClick t s
  | .check => deferredCheck s

theorem clickStep_click (s : ClickState) (t : Int) :
    clickStep s (.click t) = handleClick t s := rfl

theorem clickStep_check (s : ClickState) : clickStep s .check = deferredCheck s := rfl

/-- Run the classifier from its initial state (empty buffer, no
invocations) over a time-ordered event sequence. -/
def runClicks (es : List ClickEvent) : ClickState :=
  es.foldl clickStep { buffer := [], toggles := 0, resets := 0 }

theorem handleClick_first (t1 : Int) :
    handleClick t1 { buffer := [], toggles := 0, resets := 0 } =
      { buffer := [t1], toggles := 0, resets := 0 } := by
  simp [handleClick, TRIPLE_CLICK_WINDOW]

theorem handleClick_second (t1 t2 : Int) (hw : t2 - t1 < 500) :
    handleClick t2 { buffer := [t1], toggles := 0, resets := 0 } =
      { buffer := [t1, t2], toggles := 0, resets := 0 } := by
  simp [handleClick, TRIPLE_CLICK_WINDOW, hw]

theorem handleClick_third (t1 t2 t3 : Int) (h1 : t3 - t1 < 500) (h2 : t3 - t2 < 500) :
    handleClick t3 { buffer := [t1, t2], toggles := 0, resets := 0 } =
      { buffer := [], toggles := 0, resets := 1 } := by
  simp [handleClick, TRIPLE_CLICK_WINDOW, h1, h2]

theorem deferredCheck_two (t1 t2 : Int) :
    deferredCheck { buffer := [t1, t2], toggles := 0, resets := 0 } =
      { buffer := [], toggles := 1, resets := 0 } := by
  simp [deferredCheck]

theorem deferredCheck_empty (tg rs : Nat) :
    deferredCheck { buffer := [], toggles := tg, resets := rs } =
      { buffer := [], toggles := tg, resets := rs } := by
  simp [deferredCheck]

/-- C6: for exactly two clicks inside the 500 ms window with no third
click, the classifier performs no action while the window is open
(toggles and resets are 0 after the clicks alone); the deferred check
scheduled by the first click — which fires only after the full window
has elapsed — then invokes toggle exactly once, and the deferred check
of the second click finds the cleared buffer and does nothing, so the whole
sequence yields exactly one toggle and zero resets.  The hypotheses put
the events in their real-time order: both clicks happen before the first
deferred check fires at t1 + 500. -/
theorem C6_double_click_toggles_once (t1 t2 : Int) (_h12 : t1 ≤ t2) (hw : t2 - t1 < 500) :
    runClicks [.click t1, .click t2] =
        { buffer := [t1, t2], toggles := 0, resets := 0 } ∧
      runClicks [.click t1, .click t2, .check] =
        { buffer := [], toggles := 1, resets := 0 } ∧
      runClicks [.click t1, .click t2, .check, .check] =
        { buffer := [], toggles := 1, resets := 0 } := by
  refine ⟨?_, ?_, ?_⟩ <;>
    · unfold runClicks
      simp only [List.foldl_cons, List.foldl_nil, clickStep_click, clickStep_check]
      rw [handleClick_first, handleClick_second t1 t2 hw]
      try rw [deferredCheck_two]
      try rw [deferredCheck_empty]

/-- Witness for C6 at clicks 0 and 100. -/
theorem C6_double_click_toggles_once_witness :
    runClicks [.click 0, .click 100] =
        { buffer := [0, 100], toggles := 0, resets := 0 } ∧
      runClicks [.click 0, .click 100, .check] =
        { buffer := [], toggles := 1, resets := 0 } ∧
      runClicks [.click 0, .click 100, .check, .check] =
        { buffer := [], toggles := 1, resets := 0 } :=
  C6_double_click_toggles_once 0 100 (by decide) (by decide)

/-- Counterexample to C1 as stated: a burst of four clicks at times 0,
100, 200, 300 — all inside one 500 ms window — yields one reset (fired
at the third click) but ALSO one toggle, not zero: the reset clears the
buffer, so the fourth click starts a fresh gesture, and its deferred
check finds a single buffered timestamp and invokes onToggle.  The event
list is the real-time order: the deferred checks of clicks 1, 2 and 4
fire at 500, 600 and 800, all after the last click at 300. -/
theorem C1_counterexample_four_clicks :
    (runClicks [.click 0, .click 100, .click 200, .click 300,
        .check, .check, .check]).resets = 1 ∧
      ¬(runClicks [.click 0, .click 100, .click 200, .click 300,
        .check, .check, .check]).toggles = 0 := by
  constructor
  · decide
  · decide

/-- C1 (amended): for a burst of EXACTLY three clicks inside the 500 ms
window, the classifier invokes reset exactly once — immediately at the
third click — and never invokes toggle: the reset clears the buffer, so
the deferred checks scheduled by the first two clicks (which fire after
the window, hence after all three clicks) find an empty buffer and do
nothing.  In a larger burst the third click still produces exactly one
reset with no toggle up to that point, but the clicks after the third
are classified afresh and can fire further actions, as the
counterexample shows. -/
theorem C1_triple_click_resets_once (t1 t2 t3 : Int) (h12 : t1 ≤ t2) (h23 : t2 ≤ t3)
    (hw : t3 - t1 < 500) :
    runClicks [.click t1, .click t2, .click t3] =
        { buffer := [], toggles := 0, resets := 1 } ∧
      runClicks [.click t1, .click t2, .click t3, .check, .check] =
        { buffer := [], toggles := 0, resets := 1 } := by
  have hw12 : t2 - t1 < 500 := by omega
  have hw23 : t3 - t2 < 500 := by omega
  refine ⟨?_, ?_⟩ <;>
    · unfold runClicks
      simp only [List.foldl_cons, List.foldl_nil, clickStep_click, clickStep_check]
      rw [handleClick_first, handleClick_second t1 t2 hw12,
        handleClick_third t1 t2 t3 hw hw23]
      try rw [deferredCheck_empty]
      try rw [deferredCheck_empty]

/-- Witness for the amended C1 at clicks 0, 100, 200. -/
theorem C1_triple_click_resets_once_witness :
    runClicks [.click 0, .click 100, .click 200] =
        { buffer := [], toggles := 0, resets := 1 } ∧
      runClicks [.click 0, .click 100, .click 200, .check, .check] =
        { buffer := [], toggles := 0, resets := 1 } :=
  C1_triple_click_resets_once 0 100 200 (by decide) (by decide) (by decide)
